import Mathlib

set_option maxRecDepth 8000

/-! Verification development for the ExpenseDashboard data-shaping layer
(`services/data_service.py`).  Spreadsheet cells are modelled by `Value`
(numbers as rationals, strings, and a single missing marker `na` covering
NaN/None), sheets by `DataFrame`, and each operation of the `DataService`
class is translated into an executable Lean function.  Error messages that
the code surfaces through the UI are modelled as a `Bool` component of the
result (`true` = a message was shown).  String primitives (split, strip,
lower, containment, ordering) are implemented over character lists so that
every definition evaluates by kernel reduction. -/

/-- Cell values of a spreadsheet table: a number, a string, or a missing
value (`Value.na` models both NaN and None). -/
inductive Value where
  | num (q : ℚ)
  | str (s : String)
  | na
deriving DecidableEq, Repr

/-- A data frame: named columns and rows of cells; a row is a list of cells
positionally aligned with `cols`. -/
structure DataFrame where
  cols : List String
  rows : List (List Value)
deriving DecidableEq, Repr

/-- The empty data frame (`pd.DataFrame()`). -/
def DataFrame.empty : DataFrame := ⟨[], []⟩

/-- Cell of a row at a column index; out-of-range reads are missing. -/
def cellAt (r : List Value) (j : Nat) : Value := (r[j]?).getD Value.na

/-- Index of the first column carrying the given name. -/
def colIdx : List String → String → Option Nat
  | [], _ => none
  | c :: cs, d => if c = d then some 0 else (colIdx cs d).map (· + 1)

/-- Cell of a row under a column name (missing when the column is absent). -/
def getCell (cols : List String) (r : List Value) (c : String) : Value :=
  match colIdx cols c with
  | some j => cellAt r j
  | none => Value.na

/-- Drops whitespace from both ends of a character list. -/
def trimChars (cs : List Char) : List Char :=
  ((cs.dropWhile Char.isWhitespace).reverse.dropWhile Char.isWhitespace).reverse

/-- Python `str.strip()`. -/
def pyStrip (s : String) : String := ⟨trimChars s.data⟩

/-- ASCII lowercase conversion of one character. -/
def lowerChar (c : Char) : Char :=
  if 'A' ≤ c ∧ c ≤ 'Z' then Char.ofNat (c.toNat + 32) else c

/-- Python `str.lower()` (ASCII range, which covers every name the code
compares). -/
def pyLower (s : String) : String := ⟨s.data.map lowerChar⟩

/-- Accumulating splitter behind `pySplit`: `acc` holds the current token
reversed. -/
def pySplitChars : List Char → List Char → List String
  | [], acc => if acc.isEmpty then [] else [⟨acc.reverse⟩]
  | c :: cs, acc =>
    if c.isWhitespace then
      if acc.isEmpty then pySplitChars cs []
      else String.mk acc.reverse :: pySplitChars cs []
    else pySplitChars cs (c :: acc)

/-- Python `str.split()` with no argument: split on whitespace runs,
dropping empty tokens. -/
def pySplit (s : String) : List String := pySplitChars s.data []

/-- Tests whether the first list starts the second. -/
def leadMatch : List Char → List Char → Bool
  | [], _ => true
  | _ :: _, [] => false
  | p :: ps, c :: cs => p == c && leadMatch ps cs

/-- Tests whether `p` occurs as a contiguous run inside the list. -/
def hasSubList (p : List Char) : List Char → Bool
  | [] => p.isEmpty
  | c :: cs => leadMatch p (c :: cs) || hasSubList p cs

/-- Substring containment, modelling Python `pat in s`. -/
def containsSub (pat s : String) : Bool := hasSubList pat.data s.data

/-- Lexicographic order on character lists by code point, the order Python
uses to compare strings. -/
def charListLe : List Char → List Char → Bool
  | [], _ => true
  | _ :: _, [] => false
  | c :: cs, d :: ds => if c < d then true else if d < c then false else charListLe cs ds

/-- String comparison used by Python `sorted` on strings. -/
def strLe (a b : String) : Bool := charListLe a.data b.data

/-- Numeric value of a digit list read in base 10. -/
def natOfDigits (cs : List Char) : Nat :=
  cs.foldl (fun n c => n * 10 + (c.toNat - 48)) 0

/-- Parses an unsigned decimal numeral: a digit run with an optional dot and
fraction digits (at least one digit overall).  Models the plain finite
decimals accepted by Python `float` / `pd.to_numeric`. -/
def parseUnsigned (cs : List Char) : Option ℚ :=
  let intPart := cs.takeWhile Char.isDigit
  let rest := cs.dropWhile Char.isDigit
  match rest with
  | [] => if intPart.isEmpty then none else some (natOfDigits intPart : ℚ)
  | '.' :: frac =>
    if frac.all Char.isDigit && !(intPart.isEmpty && frac.isEmpty) then
      some ((natOfDigits intPart : ℚ) + (natOfDigits frac : ℚ) / ((10 : ℚ) ^ frac.length))
    else none
  | _ => none

/-- Parses an optionally signed decimal numeral, ignoring surrounding
whitespace; `none` models a parse failure (NaN under coercion). -/
def parseNum (s : String) : Option ℚ :=
  match trimChars s.data with
  | '-' :: cs => (parseUnsigned cs).map (fun q => -q)
  | '+' :: cs => parseUnsigned cs
  | cs => parseUnsigned cs

/-- Removes every comma, modelling `str.replace(',', '')`. -/
def stripCommas (s : String) : String := ⟨s.data.filter (fun c => !(c == ','))⟩

/-- Models `str(x)` applied to a cell (used by the Category normalization
`astype(str)`); numbers never render as any of the category names the code
looks up, so the rendering of `num` is only needed up to that fact. -/
def valueToStr : Value → String
  | Value.num q => toString q
  | Value.str s => s
  | Value.na => "nan"

/-- Category-name normalization: `astype(str).str.strip().str.lower()`. -/
def normCat (v : Value) : String := pyLower (pyStrip (valueToStr v))

/-- Amount coercion of `get_category_expenses`: `astype(str)`, comma strip,
`pd.to_numeric(errors='coerce').fillna(0)`.  A numeric cell round-trips
through its string rendering; a string parses after comma removal or becomes
0; a missing cell renders as "nan" and coerces to 0. -/
def coerceAmount : Value → ℚ
  | Value.num q => q
  | Value.str s => (parseNum (stripCommas s)).getD 0
  | Value.na => 0

/-- Scalar coercion of `get_budget_vs_actual`:
`pd.to_numeric(x, errors='coerce')` followed by `0 if pd.isna(...)`. -/
def toNumQ : Value → ℚ
  | Value.num q => q
  | Value.str s => (parseNum s).getD 0
  | Value.na => 0

/-- Value lookup coercion of `get_allocation_breakdown.get_val`: missing and
placeholder cells give 0, strings lose commas and surrounding space then
parse via `float` with failures giving 0, numbers pass through `float`. -/
def getValCoerce : Value → ℚ
  | Value.na => 0
  | Value.num q => q
  | Value.str s =>
    if s = "" ∨ s = " " ∨ s = "-" ∨ s = "N/A" then 0
    else (parseNum (pyStrip (stripCommas s))).getD 0

/-- Second token of a two-token sheet name when it is a 4-digit numeral
(the year-extraction test of `get_available_years`). -/
def yearOf (name : String) : Option String :=
  match pySplit name with
  | [_, y] => if y.data.all Char.isDigit && decide (y.data.length = 4) then some y else none
  | _ => none

/-- Insertion of a string into a list, keeping `strLe`-sorted lists sorted. -/
def insertStr (x : String) : List String → List String
  | [] => [x]
  | y :: ys => if strLe x y then x :: y :: ys else y :: insertStr x ys

/-- Insertion sort on strings, modelling Python `sorted` on strings. -/
def sortStrs : List String → List String
  | [] => []
  | x :: xs => insertStr x (sortStrs xs)

/-- DataService.get_available_years: keep the 4-digit second tokens of
two-token sheet names, dedupe (the Python `set`), and sort ascending. -/
def get_available_years (names : List String) : List String :=
  sortStrs (names.filterMap yearOf).dedup

/-- The fixed calendar-order dictionary of `get_months_for_year`. -/
def month_order : List (String × Nat) :=
  [("January", 1), ("February", 2), ("March", 3), ("April", 4), ("May", 5),
   ("June", 6), ("July", 7), ("August", 8), ("September", 9), ("October", 10),
   ("November", 11), ("December", 12)]

/-- Sort key `month_order.get(x, 99)`. -/
def monthKey (m : String) : Nat := (month_order.lookup m).getD 99

/-- Stable insertion by `monthKey`: an element moves past strictly smaller
keys only, so equal keys keep their relative order. -/
def insertMonth (x : String) : List String → List String
  | [] => [x]
  | y :: ys => if monthKey x ≤ monthKey y then x :: y :: ys else y :: insertMonth x ys

/-- Stable insertion sort by `monthKey`, modelling Python `list.sort(key=...)`. -/
def sortMonths : List String → List String
  | [] => []
  | x :: xs => insertMonth x (sortMonths xs)

/-- First token of a two-token sheet name whose second token is the year. -/
def monthTokenOf (year : String) (name : String) : Option String :=
  match pySplit name with
  | [m, y] => if y = year then some m else none
  | _ => none

/-- DataService.get_months_for_year: collect first tokens of the sheets of
the given year, then sort them chronologically by the calendar table. -/
def get_months_for_year (names : List String) (year : String) : List String :=
  sortMonths (names.filterMap (monthTokenOf year))

/-- Row predicate of pandas `df['Month'] == target` under a known Month
column index. -/
def monthCellIs (mi : Nat) (target : String) (r : List Value) : Bool :=
  decide (cellAt r mi = Value.str target)

/-- DataService.get_monthly_kpis: find the Budget row whose Month equals
`"{month} {year}"`; on a hit return `(income, income - difference,
difference)`, on a miss `(0, 0, 0)`.  A missing column or a non-numeric
Income/Difference raises inside the `try`, which the handler surfaces
(`Bool = true`) while returning `(0, 0, 0)`. -/
def get_monthly_kpis (budget : DataFrame) (month year : String) :
    (ℚ × ℚ × ℚ) × Bool :=
  match colIdx budget.cols "Month" with
  | none => ((0, 0, 0), true)
  | some mi =>
    match budget.rows.filter (monthCellIs mi (month ++ " " ++ year)) with
    | [] => ((0, 0, 0), false)
    | r :: _ =>
      match colIdx budget.cols "Income", colIdx budget.cols "Difference" with
      | some ii, some di =>
        match cellAt r ii, cellAt r di with
        | Value.num i, Value.num d => ((i, i - d, d), false)
        | _, _ => ((0, 0, 0), true)
      | _, _ => ((0, 0, 0), true)

/-- Row pipeline of `get_category_expenses` on the selected (Category,
amount) pairs: `dropna()`, the `!= 'Income'` filter, and the numeric
coercion of the amount column. -/
def cePipe (l : List (Value × Value)) : List (Value × ℚ) :=
  ((l.filter (fun p => !decide (p.1 = Value.na) && !decide (p.2 = Value.na))).filter
      (fun p => !decide (p.1 = Value.str "Income"))).map
    (fun p => (p.1, coerceAmount p.2))

/-- DataService.get_category_expenses: when `sheet` is a column of the
"category total" frame, select (Category, sheet), drop rows with a missing
cell, drop the Income category, and coerce amounts to numbers.  A missing
Category column raises a KeyError that the handler surfaces. -/
def get_category_expenses (ct : DataFrame) (sheet : String) :
    List (Value × ℚ) × Bool :=
  match colIdx ct.cols sheet with
  | none => ([], false)
  | some mi =>
    match colIdx ct.cols "Category" with
    | none => ([], true)
    | some ci =>
      (cePipe (ct.rows.map (fun r => (cellAt r ci, cellAt r mi))), false)

/-- The hard-coded NEED bucket of `get_allocation_breakdown`. -/
def NEED_CATS : List String :=
  ["rent", "grocery", "petrol", "gas & water", "medicine",
   "eb & ec", "emergency fund", "car maintenance", "bike maintenance",
   "relatives", "last month debt", "home app/maintenance", "emi"]

/-- The hard-coded WANT bucket of `get_allocation_breakdown`. -/
def WANT_CATS : List String :=
  ["entertainment", "grooming", "trip/vacation",
   "gifts", "self improvement", "withdrawal"]

/-- Inner helper `get_val` of `get_allocation_breakdown`, applied to the
frame whose Category column has already been normalized: the first row whose
Category cell equals the lowered/trimmed name supplies the month cell,
coerced by `getValCoerce`; no row gives 0. -/
def get_val (rows : List (List Value)) (ci mi : Nat) (cat : String) : ℚ :=
  match rows.find? (fun r => decide (cellAt r ci = Value.str (pyLower (pyStrip cat)))) with
  | some r => getValCoerce (cellAt r mi)
  | none => 0

/-- Normalization of one row's Category cell. -/
def normRow (ci : Nat) (r : List Value) : List Value :=
  r.set ci (Value.str (normCat (cellAt r ci)))

/-- Category-column normalization step of `get_allocation_breakdown`
(`ct_df['Category'] = ct_df['Category'].astype(str).str.strip().str.lower()`). -/
def normRows (ci : Nat) (rows : List (List Value)) : List (List Value) :=
  rows.map (normRow ci)

/-- DataService.get_allocation_breakdown: Need/Want/Investment split of the
"category total" sheet for one month column.  Returns the (Type, Raw,
Percent) rows, or the empty table when the month column is absent, when all
of income, spend total and investment are non-positive, or when the three
computed percentages add to zero.  A missing Category column raises and is
surfaced. -/
def get_allocation_breakdown (ct : DataFrame) (sheet : String) :
    List (String × ℚ × ℚ) × Bool :=
  match colIdx ct.cols sheet with
  | none => ([], false)
  | some mi =>
    match colIdx ct.cols "Category" with
    | none => ([], true)
    | some ci =>
      let nrows := normRows ci ct.rows
      let need_sum0 := (NEED_CATS.map (get_val nrows ci mi)).sum
      let want_sum0 := (WANT_CATS.map (get_val nrows ci mi)).sum
      let invest_sum := get_val nrows ci mi "investment"
      let others_val := get_val nrows ci mi "others"
      let need_sum := need_sum0 + others_val * (1 / 2)
      let want_sum := want_sum0 + others_val * (1 / 2)
      let spend_total := need_sum + want_sum
      let income := get_val nrows ci mi "income"
      if income ≤ 0 ∧ spend_total ≤ 0 ∧ invest_sum ≤ 0 then ([], false)
      else
        let invest_pct := if 0 < income then invest_sum / income * 100 else 0
        let need_pct := if 0 < spend_total then need_sum / spend_total * 100 else 0
        let want_pct := if 0 < spend_total then want_sum / spend_total * 100 else 0
        let total := need_pct + want_pct + invest_pct
        if total = 0 then ([], false)
        else
          ([("Need", need_sum, need_pct), ("Want", want_sum, want_pct),
            ("Investment", invest_sum, invest_pct)], false)

/-- Category-column selector of `get_budget_vs_actual`: every Budget column
except Month, Income, Difference and any Unnamed-containing name. -/
def goodCol (c : String) : Bool :=
  !decide (c = "Month") && !decide (c = "Income") && !decide (c = "Difference") &&
    !(containsSub "Unnamed" c)

/-- Emission loop of `get_budget_vs_actual`: for every category column a
(category, "Budget", target value) and a (category, "Actual", actual value)
row, scalars coerced to numbers. -/
def bvaRows (cols : List String) (t a : List Value) : List (String × String × ℚ) :=
  (cols.filter goodCol).flatMap (fun c =>
    [(c, "Budget", toNumQ (getCell cols t c)),
     (c, "Actual", toNumQ (getCell cols a c))])

/-- DataService.get_budget_vs_actual: locate the Budget rows whose Month is
the literal "Target" and the sheet name; if both exist, emit for every
category column a (name, "Budget", value) and a (name, "Actual", value) row
with scalars coerced to numbers; otherwise the empty table.  A missing Month
column raises and is surfaced. -/
def get_budget_vs_actual (budget : DataFrame) (sheet : String) :
    List (String × String × ℚ) × Bool :=
  match colIdx budget.cols "Month" with
  | none => ([], true)
  | some mi =>
    match budget.rows.filter (monthCellIs mi "Target"),
          budget.rows.filter (monthCellIs mi sheet) with
    | t :: _, a :: _ => (bvaRows budget.cols t a, false)
    | _, _ => ([], false)

/-- Sheet-source adapter state: the sheet-name list loaded at initialization
and the backend's sheets. -/
structure Adapter where
  sheetNames : List String
  sheets : List (String × DataFrame)
deriving DecidableEq, Repr

/-- DataService state threaded through calls: the read-only adapter plus a
log of backend sheet reads. -/
structure DSState where
  adapter : Adapter
  reads : List String
deriving DecidableEq, Repr

/-- One backend read (`get_sheet_as_df`): returns the sheet (or `none` for a
raised worksheet-not-found) and logs the access; the adapter itself is a
read-only handle. -/
def readSheetS (s : DSState) (name : String) : Option DataFrame × DSState :=
  (s.adapter.sheets.lookup name, ⟨s.adapter, s.reads ++ [name]⟩)

/-- Stateful wrapper of `get_monthly_kpis` (the "Budget" read plus the pure
transform; a failed read is caught and surfaced). -/
def kpisS (s : DSState) (month year : String) :
    ((ℚ × ℚ × ℚ) × Bool) × DSState :=
  match readSheetS s "Budget" with
  | (some df, s') => (get_monthly_kpis df month year, s')
  | (none, s') => (((0, 0, 0), true), s')

/-- Stateful wrapper of `get_category_expenses`. -/
def categoryExpensesS (s : DSState) (sheet : String) :
    (List (Value × ℚ) × Bool) × DSState :=
  match readSheetS s "category total" with
  | (some df, s') => (get_category_expenses df sheet, s')
  | (none, s') => (([], true), s')

/-- Stateful wrapper of `get_allocation_breakdown`. -/
def allocationS (s : DSState) (sheet : String) :
    (List (String × ℚ × ℚ) × Bool) × DSState :=
  match readSheetS s "category total" with
  | (some df, s') => (get_allocation_breakdown df sheet, s')
  | (none, s') => (([], true), s')

/-- Stateful wrapper of `get_budget_vs_actual`. -/
def budgetVsActualS (s : DSState) (sheet : String) :
    (List (String × String × ℚ) × Bool) × DSState :=
  match readSheetS s "Budget" with
  | (some df, s') => (get_budget_vs_actual df sheet, s')
  | (none, s') => (([], true), s')

/-- DataService.get_monthly_data: the membership guard against the loaded
sheet-name list runs first and short-circuits to an empty frame without
touching the backend; otherwise the sheet is read (a failed read raises,
modelled by `none`). -/
def get_monthly_dataS (s : DSState) (name : String) :
    Option DataFrame × DSState :=
  if name ∈ s.adapter.sheetNames then readSheetS s name
  else (some DataFrame.empty, s)

/-- Row predicate "the Month cell of this row equals the target string",
phrased against a frame (false everywhere when the Month column is absent). -/
def monthRowMatches (b : DataFrame) (target : String) (r : List Value) : Bool :=
  match colIdx b.cols "Month" with
  | some mi => decide (cellAt r mi = Value.str target)
  | none => false

/-- Month and Category column indices of a "category total" frame, when both
columns exist. -/
def allocCtx (ct : DataFrame) (sheet : String) : Option (Nat × Nat) :=
  match colIdx ct.cols sheet, colIdx ct.cols "Category" with
  | some mi, some ci => some (mi, ci)
  | _, _ => none

/-- The value `get_val` yields for a category of the given month column
(0 when either needed column is absent). -/
def allocVal (ct : DataFrame) (sheet cat : String) : ℚ :=
  match allocCtx ct sheet with
  | some (mi, ci) => get_val (normRows ci ct.rows) ci mi cat
  | none => 0

/-- Allocation need sum: the NEED categories plus half of "others". -/
def allocNeedSum (ct : DataFrame) (sheet : String) : ℚ :=
  (NEED_CATS.map (allocVal ct sheet)).sum + allocVal ct sheet "others" * (1 / 2)

/-- Allocation want sum: the WANT categories plus half of "others". -/
def allocWantSum (ct : DataFrame) (sheet : String) : ℚ :=
  (WANT_CATS.map (allocVal ct sheet)).sum + allocVal ct sheet "others" * (1 / 2)

/-- Allocation investment sum: the "investment" category value. -/
def allocInvestSum (ct : DataFrame) (sheet : String) : ℚ := allocVal ct sheet "investment"

/-- Allocation income: the "income" category value. -/
def allocIncome (ct : DataFrame) (sheet : String) : ℚ := allocVal ct sheet "income"

/-- Allocation spend total: need sum plus want sum. -/
def allocSpendTotal (ct : DataFrame) (sheet : String) : ℚ :=
  allocNeedSum ct sheet + allocWantSum ct sheet

/-- Investment percentage: share of income when income is positive, else 0. -/
def allocInvestPct (ct : DataFrame) (sheet : String) : ℚ :=
  if 0 < allocIncome ct sheet then allocInvestSum ct sheet / allocIncome ct sheet * 100 else 0

/-- Need percentage: share of the spend total when that total is positive,
else 0. -/
def allocNeedPct (ct : DataFrame) (sheet : String) : ℚ :=
  if 0 < allocSpendTotal ct sheet then allocNeedSum ct sheet / allocSpendTotal ct sheet * 100 else 0

/-- Want percentage: share of the spend total when that total is positive,
else 0. -/
def allocWantPct (ct : DataFrame) (sheet : String) : ℚ :=
  if 0 < allocSpendTotal ct sheet then allocWantSum ct sheet / allocSpendTotal ct sheet * 100 else 0

/-- Sum of the three computed percentages (the code's `total`). -/
def allocTotalPct (ct : DataFrame) (sheet : String) : ℚ :=
  allocNeedPct ct sheet + allocWantPct ct sheet + allocInvestPct ct sheet

/-- Modelled from the claim wording of C2: the need percentage with the zero
case taken at "spend total is 0" rather than at "spend total is not
positive". -/
def claimedNeedPct (ct : DataFrame) (sheet : String) : ℚ :=
  if allocSpendTotal ct sheet = 0 then 0
  else allocNeedSum ct sheet / allocSpendTotal ct sheet * 100

/-- Modelled from the claim wording of C6: select (Category, sheet), drop
only the rows whose amount is missing, exclude the Income category, strip
separators and coerce. -/
def specCE_claimed (ct : DataFrame) (sheet : String) : List (Value × ℚ) :=
  ct.rows.filterMap (fun r =>
    let c := getCell ct.cols r "Category"
    let a := getCell ct.cols r sheet
    if a = Value.na then none
    else if c = Value.str "Income" then none
    else some (c, coerceAmount a))

/-- The amended C6 pipeline: additionally drop rows whose Category cell is
missing (pandas `dropna()` looks at both selected columns). -/
def specCE_amended (ct : DataFrame) (sheet : String) : List (Value × ℚ) :=
  ct.rows.filterMap (fun r =>
    let c := getCell ct.cols r "Category"
    let a := getCell ct.cols r sheet
    if c = Value.na ∨ a = Value.na then none
    else if c = Value.str "Income" then none
    else some (c, coerceAmount a))

/-- Sample Budget sheet: a Target row and one month row. -/
def budgetSample : DataFrame :=
  ⟨["Month", "Income", "Difference", "Rent"],
   [[Value.str "Target", Value.num 60000, Value.num 0, Value.num 10000],
    [Value.str "August 2025", Value.num 50000, Value.num 12000, Value.num 9500]]⟩

/-- Sample "category total" sheet realizing the allocation example numbers. -/
def ctSample : DataFrame :=
  ⟨["Category", "August 2025"],
   [[Value.str "Income", Value.num 40000],
    [Value.str "Rent", Value.num 20000],
    [Value.str "Entertainment", Value.num 10000],
    [Value.str "Others", Value.num 2000],
    [Value.str "Investment", Value.num 4000]]⟩

/-- A "category total" sheet whose only data is a positive income. -/
def ctIncomeOnly : DataFrame :=
  ⟨["Category", "Aug 2025"], [[Value.str "Income", Value.num 100]]⟩

/-- A "category total" sheet with positive income and investment but a
negative need entry, so the spend total is negative. -/
def ctNegRent : DataFrame :=
  ⟨["Category", "Aug 2025"],
   [[Value.str "Income", Value.num 100],
    [Value.str "Investment", Value.num 5],
    [Value.str "Rent", Value.num (-10)]]⟩

/-- A "category total" sheet with a row whose Category cell is missing but
whose amount is present. -/
def ctMissingCat : DataFrame :=
  ⟨["Category", "Aug 2025"],
   [[Value.na, Value.num 5], [Value.str "Rent", Value.num 7]]⟩

/-- A Budget sheet whose matched row holds a string Income cell. -/
def budgetStrIncome : DataFrame :=
  ⟨["Month", "Income", "Difference"],
   [[Value.str "August 2025", Value.str "abc", Value.num 12000]]⟩

/-- `budgetStrIncome` with the offending cell replaced by the number 0. -/
def budgetZeroIncome : DataFrame :=
  ⟨["Month", "Income", "Difference"],
   [[Value.str "August 2025", Value.num 0, Value.num 12000]]⟩

/-- A "category total" sheet with a non-numeric amount cell. -/
def ctStrAmount : DataFrame :=
  ⟨["Category", "Aug 2025"], [[Value.str "Rent", Value.str "abc"]]⟩

/-- A Budget sheet whose Target row holds a non-numeric Rent cell. -/
def budgetStrCell : DataFrame :=
  ⟨["Month", "Rent"],
   [[Value.str "Target", Value.str "abc"], [Value.str "Aug 2025", Value.num 9500]]⟩

/-- A concrete DataService state for the stateful operations. -/
def dsSample : DSState :=
  ⟨⟨["Budget", "August 2025"], [("Budget", budgetSample)]⟩, []⟩

/-! General lemmas about the frame primitives. -/

theorem colIdx_get {cols : List String} {c : String} {j : Nat}
    (h : colIdx cols c = some j) : cols[j]? = some c := by
  induction cols generalizing j with
  | nil => simp [colIdx] at h
  | cons x xs ih =>
    by_cases hx : x = c
    · subst hx
      simp [colIdx] at h
      simp [← h]
    · simp [colIdx, hx] at h
      obtain ⟨j', hj', rfl⟩ := h
      simpa using ih hj'

theorem colIdx_ne {cols : List String} {a b : String} {ja jb : Nat}
    (ha : colIdx cols a = some ja) (hb : colIdx cols b = some jb)
    (hab : a ≠ b) : ja ≠ jb := by
  intro hj
  subst hj
  have h1 := colIdx_get ha
  have h2 := colIdx_get hb
  rw [h1] at h2
  exact hab (Option.some.inj h2)

theorem colIdx_eq_none_iff {cols : List String} {c : String} :
    colIdx cols c = none ↔ c ∉ cols := by
  induction cols with
  | nil => simp [colIdx]
  | cons x xs ih =>
    by_cases hx : x = c
    · subst hx; simp [colIdx]
    · simp [colIdx, hx, ih, Ne.symm hx]

theorem colIdx_exists_of_mem {cols : List String} {c : String} (h : c ∈ cols) :
    ∃ j, colIdx cols c = some j := by
  cases hc : colIdx cols c with
  | none => exact absurd (colIdx_eq_none_iff.mp hc) (not_not.mpr h)
  | some j => exact ⟨j, rfl⟩

theorem cellAt_set_eval (r : List Value) (j : Nat) (v : Value) :
    cellAt (r.set j v) j = if j < r.length then v else cellAt r j := by
  induction r generalizing j with
  | nil => simp [cellAt]
  | cons x xs ih =>
    cases j with
    | zero => simp [cellAt]
    | succ j => simpa [cellAt, List.set, Nat.succ_lt_succ_iff] using ih j

theorem cellAt_set_ne (r : List Value) {j k : Nat} (v : Value) (h : j ≠ k) :
    cellAt (r.set j v) k = cellAt r k := by
  induction r generalizing j k with
  | nil => simp [cellAt]
  | cons x xs ih =>
    cases j with
    | zero =>
      cases k with
      | zero => exact absurd rfl h
      | succ k => simp [cellAt]
    | succ j =>
      cases k with
      | zero => simp [cellAt]
      | succ k =>
        have : j ≠ k := fun hc => h (by rw [hc])
        simpa [cellAt, List.set] using ih this

theorem cellAt_pos {r : List Value} {j : Nat} (h : cellAt r j ≠ Value.na) :
    j < r.length := by
  by_contra hlen
  have : r[j]? = none := List.getElem?_eq_none (Nat.le_of_not_lt hlen)
  simp [cellAt, this] at h

theorem find?_eq_head_filter (p : α → Bool) (l : List α) :
    l.find? p = (l.filter p).head? := by
  induction l with
  | nil => rfl
  | cons x xs ih =>
    by_cases hx : p x
    · rw [List.find?_cons_of_pos _ hx, List.filter_cons_of_pos hx]
      rfl
    · rw [List.find?_cons_of_neg _ hx, List.filter_cons_of_neg hx, ih]

/-! Lemmas about the string insertion sort. -/

theorem charListLe_total : ∀ a b : List Char, charListLe a b = true ∨ charListLe b a = true
  | [], _ => Or.inl rfl
  | _ :: _, [] => Or.inr rfl
  | c :: cs, d :: ds => by
    by_cases hcd : c < d
    · left; simp [charListLe, hcd]
    · by_cases hdc : d < c
      · right; simp [charListLe, hdc, asymm hdc]
      · rcases charListLe_total cs ds with h | h
        · left; simp [charListLe, hcd, hdc, h]
        · right; simp [charListLe, hcd, hdc, h]

theorem charListLe_trans : ∀ {a b c : List Char},
    charListLe a b = true → charListLe b c = true → charListLe a c = true
  | [], _, _, _, _ => rfl
  | x :: xs, [], _, h, _ => by simp [charListLe] at h
  | _ :: _, _ :: _, [], _, h => by simp [charListLe] at h
  | x :: xs, y :: ys, z :: zs, h1, h2 => by
    by_cases hxy : x < y
    · by_cases hyz : y < z
      · simp [charListLe, lt_trans hxy hyz]
      · by_cases hzy : z < y
        · simp [charListLe, hyz, hzy] at h2
        · have hyz' : y = z := le_antisymm (not_lt.mp hzy) (not_lt.mp hyz)
          subst hyz'
          simp [charListLe, hxy]
    · by_cases hyx : y < x
      · simp [charListLe, hxy, hyx] at h1
      · have hxy' : x = y := le_antisymm (not_lt.mp hyx) (not_lt.mp hxy)
        subst hxy'
        by_cases hyz : x < z
        · simp [charListLe, hyz]
        · by_cases hzy : z < x
          · simp [charListLe, hyz, hzy] at h2
          · have hxz : x = z := le_antisymm (not_lt.mp hzy) (not_lt.mp hyz)
            subst hxz
            simp [charListLe, lt_irrefl] at h1 h2 ⊢
            exact charListLe_trans h1 h2

theorem strLe_total (a b : String) : strLe a b = true ∨ strLe b a = true :=
  charListLe_total a.data b.data

theorem strLe_trans {a b c : String} (h1 : strLe a b = true) (h2 : strLe b c = true) :
    strLe a c = true :=
  charListLe_trans h1 h2

theorem insertStr_perm (x : String) (l : List String) :
    (insertStr x l).Perm (x :: l) := by
  induction l with
  | nil => exact List.Perm.refl _
  | cons y ys ih =>
    by_cases h : strLe x y
    · simp [insertStr, h]
    · simp only [insertStr, h]
      exact ((ih.cons y).trans (List.Perm.swap x y ys))

theorem mem_insertStr {x a : String} {l : List String} :
    a ∈ insertStr x l ↔ a = x ∨ a ∈ l := by
  rw [(insertStr_perm x l).mem_iff]
  simp

theorem pairwise_insertStr {x : String} {l : List String}
    (h : l.Pairwise (fun a b => strLe a b = true)) :
    (insertStr x l).Pairwise (fun a b => strLe a b = true) := by
  induction l with
  | nil => simp [insertStr]
  | cons y ys ih =>
    rcases List.pairwise_cons.mp h with ⟨hy, hys⟩
    by_cases hxy : strLe x y
    · rw [show insertStr x (y :: ys) = x :: y :: ys by simp [insertStr, hxy]]
      refine List.pairwise_cons.mpr ⟨?_, h⟩
      intro b hb
      rcases List.mem_cons.mp hb with rfl | hb
      · exact hxy
      · exact strLe_trans hxy (hy b hb)
    · have hyx : strLe y x = true := (strLe_total x y).resolve_left hxy
      rw [show insertStr x (y :: ys) = y :: insertStr x ys by simp [insertStr, hxy]]
      refine List.pairwise_cons.mpr ⟨?_, ih hys⟩
      intro b hb
      rcases mem_insertStr.mp hb with rfl | hb
      · exact hyx
      · exact hy b hb

theorem sortStrs_perm (l : List String) : (sortStrs l).Perm l := by
  induction l with
  | nil => exact List.Perm.refl _
  | cons x xs ih => exact (insertStr_perm x (sortStrs xs)).trans (ih.cons x)

theorem pairwise_sortStrs (l : List String) :
    (sortStrs l).Pairwise (fun a b => strLe a b = true) := by
  induction l with
  | nil => simp [sortStrs]
  | cons x xs ih => exact pairwise_insertStr ih

/-! Lemmas about the stable month sort. -/

theorem insertMonth_perm (x : String) (l : List String) :
    (insertMonth x l).Perm (x :: l) := by
  induction l with
  | nil => exact List.Perm.refl _
  | cons y ys ih =>
    by_cases h : monthKey x ≤ monthKey y
    · simp [insertMonth, h]
    · simp only [insertMonth, if_neg h]
      exact ((ih.cons y).trans (List.Perm.swap x y ys))

theorem mem_insertMonth {x a : String} {l : List String} :
    a ∈ insertMonth x l ↔ a = x ∨ a ∈ l := by
  rw [(insertMonth_perm x l).mem_iff]
  simp

theorem pairwise_insertMonth {x : String} {l : List String}
    (h : l.Pairwise (fun a b => monthKey a ≤ monthKey b)) :
    (insertMonth x l).Pairwise (fun a b => monthKey a ≤ monthKey b) := by
  induction l with
  | nil => simp [insertMonth]
  | cons y ys ih =>
    rcases List.pairwise_cons.mp h with ⟨hy, hys⟩
    by_cases hxy : monthKey x ≤ monthKey y
    · rw [show insertMonth x (y :: ys) = x :: y :: ys by simp [insertMonth, hxy]]
      refine List.pairwise_cons.mpr ⟨?_, h⟩
      intro b hb
      rcases List.mem_cons.mp hb with rfl | hb
      · exact hxy
      · exact le_trans hxy (hy b hb)
    · have hyx : monthKey y ≤ monthKey x := le_of_not_le hxy
      rw [show insertMonth x (y :: ys) = y :: insertMonth x ys by simp [insertMonth, hxy]]
      refine List.pairwise_cons.mpr ⟨?_, ih hys⟩
      intro b hb
      rcases mem_insertMonth.mp hb with rfl | hb
      · exact hyx
      · exact hy b hb

theorem filter_insertMonth (x : String) (l : List String) (k : Nat) :
    (insertMonth x l).filter (fun m => decide (monthKey m = k)) =
      if monthKey x = k then x :: l.filter (fun m => decide (monthKey m = k))
      else l.filter (fun m => decide (monthKey m = k)) := by
  induction l with
  | nil =>
    by_cases hx : monthKey x = k <;> simp [insertMonth, hx]
  | cons y ys ih =>
    by_cases hxy : monthKey x ≤ monthKey y
    · rw [show insertMonth x (y :: ys) = x :: y :: ys by simp [insertMonth, hxy]]
      by_cases hx : monthKey x = k <;> simp [hx]
    · have hyx : monthKey y < monthKey x := lt_of_not_le hxy
      rw [show insertMonth x (y :: ys) = y :: insertMonth x ys by simp [insertMonth, hxy]]
      by_cases hy : monthKey y = k
      · have hx : ¬ monthKey x = k := by
          intro hc
          exact absurd (hc ▸ hyx) (by simp [hy])
        simp [hy, hx] at ih ⊢
        exact ih
      · by_cases hx : monthKey x = k <;> simp [hy, hx] at ih ⊢ <;> exact ih

theorem sortMonths_perm (l : List String) : (sortMonths l).Perm l := by
  induction l with
  | nil => exact List.Perm.refl _
  | cons x xs ih => exact (insertMonth_perm x (sortMonths xs)).trans (ih.cons x)

theorem pairwise_sortMonths (l : List String) :
    (sortMonths l).Pairwise (fun a b => monthKey a ≤ monthKey b) := by
  induction l with
  | nil => simp [sortMonths]
  | cons x xs ih => exact pairwise_insertMonth ih

theorem filter_sortMonths (l : List String) (k : Nat) :
    (sortMonths l).filter (fun m => decide (monthKey m = k)) =
      l.filter (fun m => decide (monthKey m = k)) := by
  induction l with
  | nil => rfl
  | cons x xs ih =>
    rw [show sortMonths (x :: xs) = insertMonth x (sortMonths xs) from rfl,
      filter_insertMonth]
    by_cases hx : monthKey x = k <;> simp [hx, ih]

theorem yearOf_eq_some_iff {n y : String} :
    yearOf n = some y ↔
      ∃ m, pySplit n = [m, y] ∧ y.data.all Char.isDigit = true ∧ y.data.length = 4 := by
  cases h : pySplit n with
  | nil => simp [yearOf, h]
  | cons a tl =>
    cases tl with
    | nil => simp [yearOf, h]
    | cons b tl2 =>
      cases tl2 with
      | nil =>
        by_cases h1 : b.data.all Char.isDigit <;> by_cases h2 : b.data.length = 4 <;>
          simp [yearOf, h, h1, h2] <;> aesop
      | cons c tl3 => simp [yearOf, h]

theorem monthTokenOf_eq_some_iff {year n m : String} :
    monthTokenOf year n = some m ↔ pySplit n = [m, year] := by
  cases h : pySplit n with
  | nil => simp [monthTokenOf, h]
  | cons a tl =>
    cases tl with
    | nil => simp [monthTokenOf, h]
    | cons b tl2 =>
      cases tl2 with
      | nil =>
        by_cases hb : b = year <;> simp [monthTokenOf, h, hb]
      | cons c tl3 => simp [monthTokenOf, h]

/-- C8: for every sheet-name list, `get_available_years` returns exactly the
second tokens of the names splitting into two tokens with a 4-digit numeral
second token, deduplicated (Nodup plus the membership equivalence) and
sorted ascending (Pairwise under the string order); on the sample name list
it returns ["2025"]. -/
theorem available_years_spec :
    (∀ names : List String,
      List.Pairwise (fun a b => strLe a b = true) (get_available_years names)
      ∧ (get_available_years names).Nodup
      ∧ (∀ y, y ∈ get_available_years names ↔
          ∃ n ∈ names, ∃ m, pySplit n = [m, y] ∧
            y.data.all Char.isDigit = true ∧ y.data.length = 4))
    ∧ get_available_years ["August 2025", "July 2025", "Budget", "category total"] =
        ["2025"] := by
  constructor
  · intro names
    refine ⟨pairwise_sortStrs _, ?_, ?_⟩
    · exact ((sortStrs_perm _).nodup_iff).mpr (List.nodup_dedup _)
    · intro y
      simp only [get_available_years]
      rw [(sortStrs_perm _).mem_iff, List.mem_dedup, List.mem_filterMap]
      constructor
      · rintro ⟨n, hn, hy⟩
        exact ⟨n, hn, yearOf_eq_some_iff.mp hy⟩
      · rintro ⟨n, hn, hex⟩
        exact ⟨n, hn, yearOf_eq_some_iff.mpr hex⟩
  · decide

/-- C7: for every sheet-name list and year, `get_months_for_year` returns a
permutation of the first tokens of the two-token names whose second token is
the year, sorted by the fixed calendar key with unrecognized names keyed 99,
and stably so (the filter at every key value is preserved); on
["August 2025", "July 2025"] with year "2025" it returns ["July", "August"]. -/
theorem months_for_year_spec :
    (∀ (names : List String) (year : String),
      (get_months_for_year names year).Perm (names.filterMap (monthTokenOf year))
      ∧ (∀ n m, monthTokenOf year n = some m ↔ pySplit n = [m, year])
      ∧ List.Pairwise (fun a b => monthKey a ≤ monthKey b) (get_months_for_year names year)
      ∧ (∀ k : Nat, (get_months_for_year names year).filter (fun m => decide (monthKey m = k)) =
          (names.filterMap (monthTokenOf year)).filter (fun m => decide (monthKey m = k))))
    ∧ get_months_for_year ["August 2025", "July 2025"] "2025" = ["July", "August"] := by
  constructor
  · intro names year
    exact ⟨sortMonths_perm _, fun n m => monthTokenOf_eq_some_iff,
      pairwise_sortMonths _, fun k => filter_sortMonths _ k⟩
  · decide

/-- C10: for a sheet name outside the loaded sheet-name list,
`get_monthly_data` returns the empty frame, leaves the state untouched and
performs no backend read (the read log is unchanged). -/
theorem monthly_data_guard_spec :
    ∀ (s : DSState) (name : String), name ∉ s.adapter.sheetNames →
      get_monthly_dataS s name = (some DataFrame.empty, s) := by
  intro s name h
  simp [get_monthly_dataS, h]

/-- C10 witness: the guard fires on a concrete out-of-list name. -/
theorem monthly_data_guard_witness :
    get_monthly_dataS dsSample "September 2025" = (some DataFrame.empty, dsSample) :=
  monthly_data_guard_spec dsSample "September 2025" (by decide)

theorem kpisS_unfold (s : DSState) (month year : String) :
    kpisS s month year =
      ((match s.adapter.sheets.lookup "Budget" with
        | some df => get_monthly_kpis df month year
        | none => ((0, 0, 0), true)),
       ⟨s.adapter, s.reads ++ ["Budget"]⟩) := by
  cases h : s.adapter.sheets.lookup "Budget" <;> simp [kpisS, readSheetS, h]

theorem categoryExpensesS_unfold (s : DSState) (sheet : String) :
    categoryExpensesS s sheet =
      ((match s.adapter.sheets.lookup "category total" with
        | some df => get_category_expenses df sheet
        | none => ([], true)),
       ⟨s.adapter, s.reads ++ ["category total"]⟩) := by
  cases h : s.adapter.sheets.lookup "category total" <;>
    simp [categoryExpensesS, readSheetS, h]

theorem allocationS_unfold (s : DSState) (sheet : String) :
    allocationS s sheet =
      ((match s.adapter.sheets.lookup "category total" with
        | some df => get_allocation_breakdown df sheet
        | none => ([], true)),
       ⟨s.adapter, s.reads ++ ["category total"]⟩) := by
  cases h : s.adapter.sheets.lookup "category total" <;>
    simp [allocationS, readSheetS, h]

theorem budgetVsActualS_unfold (s : DSState) (sheet : String) :
    budgetVsActualS s sheet =
      ((match s.adapter.sheets.lookup "Budget" with
        | some df => get_budget_vs_actual df sheet
        | none => ([], true)),
       ⟨s.adapter, s.reads ++ ["Budget"]⟩) := by
  cases h : s.adapter.sheets.lookup "Budget" <;> simp [budgetVsActualS, readSheetS, h]

/-- C9: each Metrics Engine operation leaves the adapter (the source sheet
data) unchanged, and a second call with the same arguments returns the same
output as the first. -/
theorem metrics_idempotent_spec :
    ∀ (s : DSState) (month year sheet : String),
      (kpisS s month year).2.adapter = s.adapter
      ∧ (kpisS ((kpisS s month year).2) month year).1 = (kpisS s month year).1
      ∧ (categoryExpensesS s sheet).2.adapter = s.adapter
      ∧ (categoryExpensesS ((categoryExpensesS s sheet).2) sheet).1 =
          (categoryExpensesS s sheet).1
      ∧ (allocationS s sheet).2.adapter = s.adapter
      ∧ (allocationS ((allocationS s sheet).2) sheet).1 = (allocationS s sheet).1
      ∧ (budgetVsActualS s sheet).2.adapter = s.adapter
      ∧ (budgetVsActualS ((budgetVsActualS s sheet).2) sheet).1 =
          (budgetVsActualS s sheet).1 := by
  intro s month year sheet
  simp [kpisS_unfold, categoryExpensesS_unfold, allocationS_unfold, budgetVsActualS_unfold]

/-- C3: Monthly KPIs returns (0, 0, 0) when no Budget row matches
"{month} {year}", and (income, income - difference, difference) read off the
first matching row when one exists and its Income and Difference cells hold
numbers. -/
theorem monthly_kpis_spec :
    ∀ (budget : DataFrame) (month year : String),
      (budget.rows.find? (monthRowMatches budget (month ++ " " ++ year)) = none →
        (get_monthly_kpis budget month year).1 = (0, 0, 0))
      ∧ (∀ r, budget.rows.find? (monthRowMatches budget (month ++ " " ++ year)) = some r →
          ∀ i d : ℚ, getCell budget.cols r "Income" = Value.num i →
            getCell budget.cols r "Difference" = Value.num d →
            (get_monthly_kpis budget month year).1 = (i, i - d, d)) := by
  intro budget month year
  cases hm : colIdx budget.cols "Month" with
  | none =>
    constructor
    · intro _
      simp [get_monthly_kpis, hm]
    · intro r hr i d hi hd
      have hp : monthRowMatches budget (month ++ " " ++ year) r = true := List.find?_some hr
      simp [monthRowMatches, hm] at hp
  | some mi =>
    have hpred : monthRowMatches budget (month ++ " " ++ year) =
        monthCellIs mi (month ++ " " ++ year) := by
      funext r
      simp [monthRowMatches, monthCellIs, hm]
    rw [hpred]
    constructor
    · intro hnone
      rw [find?_eq_head_filter] at hnone
      cases hf : budget.rows.filter (monthCellIs mi (month ++ " " ++ year)) with
      | nil => simp [get_monthly_kpis, hm, hf]
      | cons r0 rest => rw [hf] at hnone; simp at hnone
    · intro r hr i d hi hd
      rw [find?_eq_head_filter] at hr
      cases hf : budget.rows.filter (monthCellIs mi (month ++ " " ++ year)) with
      | nil => rw [hf] at hr; simp at hr
      | cons r0 rest =>
        rw [hf] at hr
        simp only [List.head?] at hr
        have hr0 : r0 = r := Option.some.inj hr
        subst hr0
        cases hInc : colIdx budget.cols "Income" with
        | none => simp [getCell, hInc] at hi
        | some ii =>
          cases hDif : colIdx budget.cols "Difference" with
          | none => simp [getCell, hDif] at hd
          | some di =>
            have hi' : cellAt r0 ii = Value.num i := by simpa [getCell, hInc] using hi
            have hd' : cellAt r0 di = Value.num d := by simpa [getCell, hDif] using hd
            simp [get_monthly_kpis, hm, hf, hInc, hDif, hi', hd']

/-- C3 witness: the sample Budget row with Income 50000 and Difference 12000
yields (50000, 38000, 12000). -/
theorem monthly_kpis_witness :
    (get_monthly_kpis budgetSample "August" "2025").1 = (50000, 38000, 12000) := by
  have h := (monthly_kpis_spec budgetSample "August" "2025").2
    [Value.str "August 2025", Value.num 50000, Value.num 12000, Value.num 9500]
    (by decide) 50000 12000 (by decide) (by decide)
  rw [h]
  norm_num

/-- C5: Budget vs Actual is empty when the Target row or the sheet-name row
is missing; when both are found it emits, for every Budget column other than
Month, Income, Difference and Unnamed-containing names, exactly the two rows
(category, "Budget", target value) and (category, "Actual", actual value)
with missing or non-numeric scalars coerced to 0 and zero rows kept. -/
theorem budget_vs_actual_spec :
    ∀ (budget : DataFrame) (sheet : String),
      ((budget.rows.find? (monthRowMatches budget "Target") = none
        ∨ budget.rows.find? (monthRowMatches budget sheet) = none) →
        (get_budget_vs_actual budget sheet).1 = [])
      ∧ (∀ t a, budget.rows.find? (monthRowMatches budget "Target") = some t →
          budget.rows.find? (monthRowMatches budget sheet) = some a →
          (get_budget_vs_actual budget sheet).1 =
            (budget.cols.filter goodCol).flatMap (fun c =>
              [(c, "Budget", toNumQ (getCell budget.cols t c)),
               (c, "Actual", toNumQ (getCell budget.cols a c))])) := by
  intro budget sheet
  cases hm : colIdx budget.cols "Month" with
  | none =>
    constructor
    · intro _
      simp [get_budget_vs_actual, hm]
    · intro t a ht ha
      have hp : monthRowMatches budget "Target" t = true := List.find?_some ht
      simp [monthRowMatches, hm] at hp
  | some mi =>
    have hpt : monthRowMatches budget "Target" = monthCellIs mi "Target" := by
      funext r
      simp [monthRowMatches, monthCellIs, hm]
    have hpa : monthRowMatches budget sheet = monthCellIs mi sheet := by
      funext r
      simp [monthRowMatches, monthCellIs, hm]
    rw [hpt, hpa]
    constructor
    · intro hnone
      rcases hnone with hnone | hnone <;> rw [find?_eq_head_filter] at hnone
      · cases hf : budget.rows.filter (monthCellIs mi "Target") with
        | nil =>
          cases hf2 : budget.rows.filter (monthCellIs mi sheet) with
          | nil => simp [get_budget_vs_actual, hm, hf, hf2]
          | cons a rest => simp [get_budget_vs_actual, hm, hf, hf2]
        | cons t rest => rw [hf] at hnone; simp at hnone
      · cases hf2 : budget.rows.filter (monthCellIs mi sheet) with
        | nil =>
          cases hf : budget.rows.filter (monthCellIs mi "Target") with
          | nil => simp [get_budget_vs_actual, hm, hf, hf2]
          | cons t rest => simp [get_budget_vs_actual, hm, hf, hf2]
        | cons a rest => rw [hf2] at hnone; simp at hnone
    · intro t a ht ha
      rw [find?_eq_head_filter] at ht ha
      cases hf : budget.rows.filter (monthCellIs mi "Target") with
      | nil => rw [hf] at ht; simp at ht
      | cons t0 rest =>
        cases hf2 : budget.rows.filter (monthCellIs mi sheet) with
        | nil => rw [hf2] at ha; simp at ha
        | cons a0 rest2 =>
          rw [hf] at ht
          rw [hf2] at ha
          simp only [List.head?] at ht ha
          have ht0 : t0 = t := Option.some.inj ht
          have ha0 : a0 = a := Option.some.inj ha
          subst ht0
          subst ha0
          simp [get_budget_vs_actual, hm, hf, hf2, bvaRows]

/-- C5 witness: Target and August 2025 rows present with Rent 10000/9500
yield exactly the two Rent rows. -/
theorem budget_vs_actual_witness :
    (get_budget_vs_actual budgetSample "August 2025").1 =
      [("Rent", "Budget", 10000), ("Rent", "Actual", 9500)] := by
  have h := (budget_vs_actual_spec budgetSample "August 2025").2
    [Value.str "Target", Value.num 60000, Value.num 0, Value.num 10000]
    [Value.str "August 2025", Value.num 50000, Value.num 12000, Value.num 9500]
    (by decide) (by decide)
  rw [h]
  decide

theorem cePipe_cons (p : Value × Value) (tl : List (Value × Value)) :
    cePipe (p :: tl) =
      if p.1 = Value.na ∨ p.2 = Value.na then cePipe tl
      else if p.1 = Value.str "Income" then cePipe tl
      else (p.1, coerceAmount p.2) :: cePipe tl := by
  by_cases h1 : p.1 = Value.na
  · simp [cePipe, h1]
  · by_cases h2 : p.2 = Value.na
    · simp [cePipe, h1, h2]
    · by_cases h3 : p.1 = Value.str "Income"
      · simp [cePipe, h1, h2, h3]
      · simp [cePipe, h1, h2, h3]

theorem cePipe_eq_filterMap (l : List (Value × Value)) :
    cePipe l = l.filterMap (fun p =>
      if p.1 = Value.na ∨ p.2 = Value.na then none
      else if p.1 = Value.str "Income" then none
      else some (p.1, coerceAmount p.2)) := by
  induction l with
  | nil => rfl
  | cons p tl ih =>
    rw [cePipe_cons, List.filterMap_cons]
    by_cases h1 : p.1 = Value.na ∨ p.2 = Value.na
    · simp [h1, ih]
    · by_cases h3 : p.1 = Value.str "Income"
      · simp [h1, h3, ih]
      · simp [h1, h3, ih]

theorem ce_char (ct : DataFrame) (sheet : String) {mi ci : Nat}
    (hmi : colIdx ct.cols sheet = some mi) (hci : colIdx ct.cols "Category" = some ci) :
    (get_category_expenses ct sheet).1 = specCE_amended ct sheet
    ∧ (get_category_expenses ct sheet).2 = false := by
  constructor
  · simp only [get_category_expenses, hmi, hci]
    rw [cePipe_eq_filterMap, List.filterMap_map]
    simp only [specCE_amended, getCell, hmi, hci]
    rfl
  · simp [get_category_expenses, hmi, hci]

/-- C6 counterexample: on a sheet holding a row with a missing Category cell
and amount 5, the code drops the row, while the claimed pipeline (drop only
rows with missing amount) keeps it. -/
theorem category_expenses_counterexample :
    get_category_expenses ctMissingCat "Aug 2025" = ([(Value.str "Rent", 7)], false)
    ∧ specCE_claimed ctMissingCat "Aug 2025" = [(Value.na, 5), (Value.str "Rent", 7)] := by
  constructor <;> decide

/-- C6 amended: Category Expenses is empty when the sheet name is not a
column; otherwise it selects (Category, sheet), drops the rows with a
missing Category or missing amount, excludes the Income category, strips
thousands separators and coerces non-numeric amounts to 0, silently. -/
theorem category_expenses_spec :
    ∀ (ct : DataFrame) (sheet : String),
      (sheet ∉ ct.cols → get_category_expenses ct sheet = ([], false))
      ∧ (sheet ∈ ct.cols → "Category" ∈ ct.cols →
          (get_category_expenses ct sheet).1 = specCE_amended ct sheet
          ∧ (get_category_expenses ct sheet).2 = false) := by
  intro ct sheet
  constructor
  · intro h
    have hn : colIdx ct.cols sheet = none := colIdx_eq_none_iff.mpr h
    simp [get_category_expenses, hn]
  · intro hs hc
    obtain ⟨mi, hmi⟩ := colIdx_exists_of_mem hs
    obtain ⟨ci, hci⟩ := colIdx_exists_of_mem hc
    exact ce_char ct sheet hmi hci

/-- C6 witness: the amended pipeline matches the code on the sample sheet. -/
theorem category_expenses_witness :
    (get_category_expenses ctSample "August 2025").1 =
      specCE_amended ctSample "August 2025" :=
  ((category_expenses_spec ctSample "August 2025").2 (by decide) (by decide)).1

theorem allocCtx_eq {ct : DataFrame} {sheet : String} {mi ci : Nat}
    (hmi : colIdx ct.cols sheet = some mi) (hci : colIdx ct.cols "Category" = some ci) :
    allocCtx ct sheet = some (mi, ci) := by
  simp [allocCtx, hmi, hci]

theorem allocVal_eq {ct : DataFrame} {sheet : String} {mi ci : Nat}
    (hmi : colIdx ct.cols sheet = some mi) (hci : colIdx ct.cols "Category" = some ci)
    (cat : String) :
    allocVal ct sheet cat = get_val (normRows ci ct.rows) ci mi cat := by
  simp [allocVal, allocCtx_eq hmi hci]

theorem alloc_char (ct : DataFrame) (sheet : String) {mi ci : Nat}
    (hmi : colIdx ct.cols sheet = some mi) (hci : colIdx ct.cols "Category" = some ci) :
    get_allocation_breakdown ct sheet =
      (if allocIncome ct sheet ≤ 0 ∧ allocSpendTotal ct sheet ≤ 0 ∧
          allocInvestSum ct sheet ≤ 0 then []
       else if allocTotalPct ct sheet = 0 then []
       else [("Need", allocNeedSum ct sheet, allocNeedPct ct sheet),
             ("Want", allocWantSum ct sheet, allocWantPct ct sheet),
             ("Investment", allocInvestSum ct sheet, allocInvestPct ct sheet)], false) := by
  have hv : allocVal ct sheet = get_val (normRows ci ct.rows) ci mi :=
    funext (allocVal_eq hmi hci)
  simp only [get_allocation_breakdown, hmi, hci, allocNeedSum, allocWantSum, allocInvestSum,
    allocIncome, allocSpendTotal, allocInvestPct, allocNeedPct, allocWantPct, allocTotalPct, hv]
  split_ifs <;> rfl

theorem sum_map_zero {α : Type} (l : List α) : (l.map (fun _ => (0 : ℚ))).sum = 0 := by
  induction l with
  | nil => rfl
  | cons x xs ih => simp [ih]

theorem allocVal_zero_of_none {ct : DataFrame} {sheet : String}
    (h : allocCtx ct sheet = none) (cat : String) : allocVal ct sheet cat = 0 := by
  simp [allocVal, h]

theorem alloc_empty_of_none {ct : DataFrame} {sheet : String}
    (h : allocCtx ct sheet = none) :
    (get_allocation_breakdown ct sheet).1 = [] := by
  unfold allocCtx at h
  cases hmi : colIdx ct.cols sheet with
  | none => simp [get_allocation_breakdown, hmi]
  | some mi =>
    cases hci : colIdx ct.cols "Category" with
    | none => simp [get_allocation_breakdown, hmi, hci]
    | some ci => rw [hmi, hci] at h; simp at h

/-- C1 counterexample: a sheet with a positive income and nothing else makes
the operation return the empty table even though income is positive. -/
theorem allocation_counterexample :
    (0 : ℚ) < allocIncome ctIncomeOnly "Aug 2025"
    ∧ (get_allocation_breakdown ctIncomeOnly "Aug 2025").1 = [] := by
  constructor
  · norm_num +decide [allocIncome, allocVal, allocCtx, ctIncomeOnly, colIdx, normRows, normRow,
      normCat, valueToStr, pyLower, pyStrip, trimChars, lowerChar, cellAt, get_val, List.find?,
      getValCoerce]
  · norm_num +decide [get_allocation_breakdown, ctIncomeOnly, colIdx, normRows, normRow, normCat,
      valueToStr, pyLower, pyStrip, trimChars, lowerChar, cellAt, get_val, List.find?,
      getValCoerce, NEED_CATS, WANT_CATS]

/-- C1 amended: the Allocation Breakdown result is empty exactly when income,
spend total and investment sum are all non-positive or when the three
computed percentages add to zero (which also covers a missing month or
Category column, where every looked-up value is 0); a non-empty result is
the three-row (Type, Raw, Percent) table. -/
theorem allocation_empty_spec :
    ∀ (ct : DataFrame) (sheet : String),
      ((get_allocation_breakdown ct sheet).1 = [] ↔
        (allocIncome ct sheet ≤ 0 ∧ allocSpendTotal ct sheet ≤ 0 ∧
          allocInvestSum ct sheet ≤ 0)
        ∨ allocTotalPct ct sheet = 0)
      ∧ ((get_allocation_breakdown ct sheet).1 ≠ [] →
          (get_allocation_breakdown ct sheet).1 =
            [("Need", allocNeedSum ct sheet, allocNeedPct ct sheet),
             ("Want", allocWantSum ct sheet, allocWantPct ct sheet),
             ("Investment", allocInvestSum ct sheet, allocInvestPct ct sheet)]) := by
  intro ct sheet
  cases hctx : allocCtx ct sheet with
  | none =>
    have hval : allocVal ct sheet = fun _ => (0 : ℚ) :=
      funext (allocVal_zero_of_none hctx)
    have hempty := alloc_empty_of_none hctx
    constructor
    · rw [hempty]
      simp only [allocIncome, allocSpendTotal, allocNeedSum, allocWantSum, allocInvestSum, hval,
        sum_map_zero]
      norm_num
    · intro hne
      exact absurd hempty hne
  | some p =>
    obtain ⟨mi, ci⟩ := p
    have hmi : colIdx ct.cols sheet = some mi := by
      unfold allocCtx at hctx
      cases h1 : colIdx ct.cols sheet <;> cases h2 : colIdx ct.cols "Category" <;>
        rw [h1, h2] at hctx <;> simp at hctx
      simp [hctx.1]
    have hci : colIdx ct.cols "Category" = some ci := by
      unfold allocCtx at hctx
      cases h1 : colIdx ct.cols sheet <;> cases h2 : colIdx ct.cols "Category" <;>
        rw [h1, h2] at hctx <;> simp at hctx
      simp [hctx.2]
    have hchar := alloc_char ct sheet hmi hci
    constructor
    · rw [show (get_allocation_breakdown ct sheet).1 =
          (if allocIncome ct sheet ≤ 0 ∧ allocSpendTotal ct sheet ≤ 0 ∧
              allocInvestSum ct sheet ≤ 0 then []
           else if allocTotalPct ct sheet = 0 then []
           else [("Need", allocNeedSum ct sheet, allocNeedPct ct sheet),
                 ("Want", allocWantSum ct sheet, allocWantPct ct sheet),
                 ("Investment", allocInvestSum ct sheet, allocInvestPct ct sheet)])
          from congrArg Prod.fst hchar]
      by_cases hg : allocIncome ct sheet ≤ 0 ∧ allocSpendTotal ct sheet ≤ 0 ∧
          allocInvestSum ct sheet ≤ 0
      · simp [hg]
      · by_cases ht : allocTotalPct ct sheet = 0 <;> simp [hg, ht]
    · intro hne
      rw [congrArg Prod.fst hchar] at hne ⊢
      by_cases hg : allocIncome ct sheet ≤ 0 ∧ allocSpendTotal ct sheet ≤ 0 ∧
          allocInvestSum ct sheet ≤ 0
      · simp [hg] at hne
      · by_cases ht : allocTotalPct ct sheet = 0
        · simp [hg, ht] at hne
        · simp [hg, ht]

/-- C1 witness: on the sample sheet the result is non-empty and equals the
three-row table of the helper quantities. -/
theorem allocation_empty_witness :
    (get_allocation_breakdown ctSample "August 2025").1 =
      [("Need", allocNeedSum ctSample "August 2025", allocNeedPct ctSample "August 2025"),
       ("Want", allocWantSum ctSample "August 2025", allocWantPct ctSample "August 2025"),
       ("Investment", allocInvestSum ctSample "August 2025",
        allocInvestPct ctSample "August 2025")] :=
  (allocation_empty_spec ctSample "August 2025").2 (by
    norm_num +decide [get_allocation_breakdown, ctSample, colIdx, normRows, normRow, normCat,
      valueToStr, pyLower, pyStrip, trimChars, lowerChar, cellAt, get_val, List.find?,
      getValCoerce, NEED_CATS, WANT_CATS])

/-- C2 counterexample: with income 100, investment 5 and rent -10 the spend
total is -10 (non-zero), the claimed formula gives needPct = 100, but the
code emits needPct = 0 because its zero case triggers on any non-positive
spend total. -/
theorem allocation_pct_counterexample :
    (get_allocation_breakdown ctNegRent "Aug 2025").1 =
      [("Need", -10, 0), ("Want", 0, 0), ("Investment", 5, 5)]
    ∧ allocSpendTotal ctNegRent "Aug 2025" = -10
    ∧ claimedNeedPct ctNegRent "Aug 2025" = 100 := by
  refine ⟨?_, ?_, ?_⟩
  · norm_num +decide [get_allocation_breakdown, ctNegRent, colIdx, normRows, normRow, normCat,
      valueToStr, pyLower, pyStrip, trimChars, lowerChar, cellAt, get_val, List.find?,
      getValCoerce, NEED_CATS, WANT_CATS]
  · norm_num +decide [allocSpendTotal, allocNeedSum, allocWantSum, allocVal, allocCtx, ctNegRent,
      colIdx, normRows, normRow, normCat, valueToStr, pyLower, pyStrip, trimChars, lowerChar,
      cellAt, get_val, List.find?, getValCoerce, NEED_CATS, WANT_CATS]
  · norm_num +decide [claimedNeedPct, allocSpendTotal, allocNeedSum, allocWantSum, allocVal,
      allocCtx, ctNegRent, colIdx, normRows, normRow, normCat, valueToStr, pyLower, pyStrip,
      trimChars, lowerChar, cellAt, get_val, List.find?, getValCoerce, NEED_CATS, WANT_CATS]

/-- C2 amended: whenever the Allocation Breakdown output is the three-row
table, the Need row carries the NEED-set sum plus half of "others" and its
share of the spend total (zero when the spend total is not positive, rather
than only when it is zero), the Want row likewise, and the Investment row
carries the investment value and its share of income (zero when income is
not positive); on the sample sheet the quantities are needSum 21000, wantSum
11000, investPct 10, needPct 65.625, wantPct 34.375. -/
theorem allocation_formulas_spec :
    (∀ (ct : DataFrame) (sheet : String) (r₁ r₂ r₃ : String × ℚ × ℚ),
      (get_allocation_breakdown ct sheet).1 = [r₁, r₂, r₃] →
        r₁ = ("Need", allocNeedSum ct sheet,
          if 0 < allocSpendTotal ct sheet then
            allocNeedSum ct sheet / allocSpendTotal ct sheet * 100 else 0)
        ∧ r₂ = ("Want", allocWantSum ct sheet,
          if 0 < allocSpendTotal ct sheet then
            allocWantSum ct sheet / allocSpendTotal ct sheet * 100 else 0)
        ∧ r₃ = ("Investment", allocInvestSum ct sheet,
          if 0 < allocIncome ct sheet then
            allocInvestSum ct sheet / allocIncome ct sheet * 100 else 0))
    ∧ allocNeedSum ctSample "August 2025" = 21000
    ∧ allocWantSum ctSample "August 2025" = 11000
    ∧ allocInvestPct ctSample "August 2025" = 10
    ∧ allocNeedPct ctSample "August 2025" = 65.625
    ∧ allocWantPct ctSample "August 2025" = 34.375 := by
  refine ⟨?_, ?_, ?_, ?_, ?_, ?_⟩
  · intro ct sheet r₁ r₂ r₃ hout
    have hne : (get_allocation_breakdown ct sheet).1 ≠ [] := by
      rw [hout]
      simp
    have h3 := (allocation_empty_spec ct sheet).2 hne
    rw [hout] at h3
    have e1 := (List.cons.injEq _ _ _ _ ▸ h3).1
    have e2 := ((List.cons.injEq _ _ _ _ ▸ h3).2 : [r₂, r₃] = _)
    have e2' := (List.cons.injEq _ _ _ _ ▸ e2).1
    have e3 := ((List.cons.injEq _ _ _ _ ▸ e2).2 : [r₃] = _)
    have e3' := (List.cons.injEq _ _ _ _ ▸ e3).1
    exact ⟨e1, by rw [e2', allocWantPct], by rw [e3', allocInvestPct]⟩
  all_goals
    norm_num +decide [allocNeedSum, allocWantSum, allocInvestSum, allocIncome, allocSpendTotal,
      allocInvestPct, allocNeedPct, allocWantPct, allocVal, allocCtx, ctSample, colIdx, normRows,
      normRow, normCat, valueToStr, pyLower, pyStrip, trimChars, lowerChar, cellAt, get_val,
      List.find?, getValCoerce, NEED_CATS, WANT_CATS]

/-- C2 witness: the first output row of the sample sheet instantiates the
Need-row formula. -/
theorem allocation_formulas_witness :
    ("Need", (21000 : ℚ), (65.625 : ℚ)) =
      ("Need", allocNeedSum ctSample "August 2025",
        if 0 < allocSpendTotal ctSample "August 2025" then
          allocNeedSum ctSample "August 2025" / allocSpendTotal ctSample "August 2025" * 100
        else 0) :=
  (allocation_formulas_spec.1 ctSample "August 2025"
    ("Need", 21000, 65.625) ("Want", 11000, 34.375) ("Investment", 4000, 10)
    (by
      norm_num +decide [get_allocation_breakdown, ctSample, colIdx, normRows, normRow, normCat,
        valueToStr, pyLower, pyStrip, trimChars, lowerChar, cellAt, get_val, List.find?,
        getValCoerce, NEED_CATS, WANT_CATS])).1

/-- C4 counterexample: a string "abc" in the Income cell of the matched
Budget row makes Monthly KPIs surface an error and return (0, 0, 0), whereas
the same sheet with that cell set to 0 silently returns (0, -12000, 12000). -/
theorem coercion_counterexample :
    get_monthly_kpis budgetStrIncome "August" "2025" = ((0, 0, 0), true)
    ∧ get_monthly_kpis budgetZeroIncome "August" "2025" = ((0, -12000, 12000), false) := by
  constructor <;>
    norm_num +decide [get_monthly_kpis, budgetStrIncome, budgetZeroIncome, colIdx, monthCellIs,
      cellAt, List.filter]

theorem cellAt_coerce_set {f : Value → ℚ} (x : List Value) (j : Nat) (v' : Value)
    (hc : f v' = f (cellAt x j)) : f (cellAt (x.set j v') j) = f (cellAt x j) := by
  rw [cellAt_set_eval]
  by_cases h : j < x.length
  · simp [h, hc]
  · simp [h]

theorem cePipe_set_congr (l : List (Value × Value)) (i : Nat) (p q : Value × Value)
    (hget : l[i]? = some p) (h1 : q.1 = p.1) (h2 : q.2 = Value.na ↔ p.2 = Value.na)
    (h3 : coerceAmount q.2 = coerceAmount p.2) :
    cePipe (l.set i q) = cePipe l := by
  induction l generalizing i with
  | nil => simp at hget
  | cons y tl ih =>
    cases i with
    | zero =>
      have hy : y = p := by simpa using hget
      subst hy
      rw [List.set_cons_zero, cePipe_cons, cePipe_cons]
      by_cases hna : y.1 = Value.na ∨ y.2 = Value.na
      · have hna' : q.1 = Value.na ∨ q.2 = Value.na := by
          rcases hna with h | h
          · exact Or.inl (h1 ▸ h)
          · exact Or.inr (h2.mpr h)
        simp [hna, hna']
      · have hna' : ¬ (q.1 = Value.na ∨ q.2 = Value.na) := by
          rintro (h | h)
          · exact hna (Or.inl (h1 ▸ h))
          · exact hna (Or.inr (h2.mp h))
        by_cases hinc : y.1 = Value.str "Income"
        · have hinc' : q.1 = Value.str "Income" := h1 ▸ hinc
          simp [hna, hna', hinc, hinc']
        · have hinc' : ¬ q.1 = Value.str "Income" := fun h => hinc (h1 ▸ h)
          push_neg at hna hna'
          simp [hna.1, hna.2, hna'.1, hna'.2, hinc, hinc', h1, h3]
    | succ i =>
      have hget' : tl[i]? = some p := by simpa using hget
      rw [List.set_cons_succ, cePipe_cons, cePipe_cons, ih i hget']

theorem ce_set_congr (ct : DataFrame) (sheet : String) (i j : Nat) (r : List Value) (s : String)
    (hget : ct.rows[i]? = some r)
    (hmj : colIdx ct.cols sheet = some j)
    (hsheet : sheet ≠ "Category")
    (hcell : cellAt r j = Value.str s)
    (hz : coerceAmount (Value.str s) = 0) :
    get_category_expenses ⟨ct.cols, ct.rows.set i (r.set j (Value.num 0))⟩ sheet =
      get_category_expenses ct sheet := by
  cases hci : colIdx ct.cols "Category" with
  | none => simp [get_category_expenses, hmj, hci]
  | some ci =>
    have hcij : ci ≠ j := colIdx_ne hci hmj (fun h => hsheet h.symm)
    have hlen : j < r.length := cellAt_pos (by rw [hcell]; exact fun h => Value.noConfusion h)
    simp only [get_category_expenses, hmj, hci]
    congr 1
    rw [List.map_set]
    apply cePipe_set_congr _ i (cellAt r ci, cellAt r j)
    · rw [List.getElem?_map, hget]
      rfl
    · exact cellAt_set_ne r _ (fun h => hcij h.symm)
    · rw [cellAt_set_eval, if_pos hlen, hcell]
      constructor
      · intro h
        exact absurd h (fun hc => Value.noConfusion hc)
      · intro h
        exact absurd h (fun hc => Value.noConfusion hc)
    · rw [cellAt_set_eval, if_pos hlen, hcell, hz]
      rfl

theorem find?_cons_pos' (p : α → Bool) (a : α) (l : List α) (h : p a = true) :
    List.find? p (a :: l) = some a := List.find?_cons_of_pos l h

theorem find?_cons_neg' (p : α → Bool) (a : α) (l : List α) (h : ¬ p a = true) :
    List.find? p (a :: l) = List.find? p l := List.find?_cons_of_neg l h

theorem get_val_set_congr (rows : List (List Value)) (i : Nat) (x : List Value)
    (j ci : Nat) (v' : Value) (cat : String)
    (hget : rows[i]? = some x) (hcij : ci ≠ j)
    (hc : getValCoerce v' = getValCoerce (cellAt x j)) :
    get_val (rows.set i (x.set j v')) ci j cat = get_val rows ci j cat := by
  induction rows generalizing i with
  | nil => simp at hget
  | cons y tl ih =>
    cases i with
    | zero =>
      have hy : y = x := by simpa using hget
      subst hy
      rw [List.set_cons_zero]
      have hpred : cellAt (y.set j v') ci = cellAt y ci :=
        cellAt_set_ne y _ (fun h => hcij h.symm)
      by_cases hp : cellAt y ci = Value.str (pyLower (pyStrip cat))
      · have hp1 : decide (cellAt (y.set j v') ci = Value.str (pyLower (pyStrip cat))) = true := by
          simp [hpred, hp]
        have hp2 : decide (cellAt y ci = Value.str (pyLower (pyStrip cat))) = true := by
          simp [hp]
        unfold get_val
        rw [find?_cons_pos' (fun row => decide (cellAt row ci = Value.str (pyLower (pyStrip cat)))) (y.set j v') tl hp1,
          find?_cons_pos' (fun row => decide (cellAt row ci = Value.str (pyLower (pyStrip cat)))) y tl hp2]
        exact cellAt_coerce_set y j v' hc
      · have hp1 : ¬ decide (cellAt (y.set j v') ci = Value.str (pyLower (pyStrip cat))) = true := by
          simp [hpred, hp]
        have hp2 : ¬ decide (cellAt y ci = Value.str (pyLower (pyStrip cat))) = true := by
          simp [hp]
        unfold get_val
        rw [find?_cons_neg' (fun row => decide (cellAt row ci = Value.str (pyLower (pyStrip cat)))) (y.set j v') tl hp1,
          find?_cons_neg' (fun row => decide (cellAt row ci = Value.str (pyLower (pyStrip cat)))) y tl hp2]
    | succ i =>
      have hget' : tl[i]? = some x := by simpa using hget
      rw [List.set_cons_succ]
      by_cases hp : cellAt y ci = Value.str (pyLower (pyStrip cat))
      · have hp2 : decide (cellAt y ci = Value.str (pyLower (pyStrip cat))) = true := by
          simp [hp]
        unfold get_val
        rw [find?_cons_pos' (fun row => decide (cellAt row ci = Value.str (pyLower (pyStrip cat)))) y (tl.set i (x.set j v')) hp2,
          find?_cons_pos' (fun row => decide (cellAt row ci = Value.str (pyLower (pyStrip cat)))) y tl hp2]
      · have hp2 : ¬ decide (cellAt y ci = Value.str (pyLower (pyStrip cat))) = true := by
          simp [hp]
        unfold get_val
        rw [find?_cons_neg' (fun row => decide (cellAt row ci = Value.str (pyLower (pyStrip cat)))) y (tl.set i (x.set j v')) hp2,
          find?_cons_neg' (fun row => decide (cellAt row ci = Value.str (pyLower (pyStrip cat)))) y tl hp2]
        exact ih i hget'

theorem normRow_set (ci j : Nat) (x : List Value) (v' : Value) (hcij : ci ≠ j) :
    normRow ci (x.set j v') = (normRow ci x).set j v' := by
  unfold normRow
  rw [cellAt_set_ne x _ (fun h => hcij h.symm), List.set_comm _ _ _ (fun h => hcij h.symm)]

theorem alloc_set_congr (ct : DataFrame) (sheet : String) (i j : Nat) (r : List Value)
    (v' : Value)
    (hget : ct.rows[i]? = some r)
    (hmj : colIdx ct.cols sheet = some j)
    (hsheet : sheet ≠ "Category")
    (hc : getValCoerce v' = getValCoerce (cellAt r j)) :
    get_allocation_breakdown ⟨ct.cols, ct.rows.set i (r.set j v')⟩ sheet =
      get_allocation_breakdown ct sheet := by
  cases hci : colIdx ct.cols "Category" with
  | none => simp [get_allocation_breakdown, hmj, hci]
  | some ci =>
    have hcij : ci ≠ j := colIdx_ne hci hmj (fun h => hsheet h.symm)
    have hnr : normRows ci (ct.rows.set i (r.set j v')) =
        (normRows ci ct.rows).set i ((normRow ci r).set j v') := by
      unfold normRows
      rw [List.map_set, normRow_set ci j r v' hcij]
    have hget' : (normRows ci ct.rows)[i]? = some (normRow ci r) := by
      unfold normRows
      rw [List.getElem?_map, hget]
      rfl
    have hcr : cellAt (normRow ci r) j = cellAt r j :=
      cellAt_set_ne r _ hcij
    have hgv : get_val ((normRows ci ct.rows).set i ((normRow ci r).set j v')) ci j =
        get_val (normRows ci ct.rows) ci j :=
      funext (fun cat =>
        get_val_set_congr (normRows ci ct.rows) i (normRow ci r) j ci v' cat hget' hcij
          (by rw [hcr]; exact hc))
    simp only [get_allocation_breakdown, hmj, hci]
    rw [hnr]
    simp only [hgv]

theorem find?_set_rel (l : List α) (i : Nat) (x x' : α) (p : α → Bool)
    (hget : l[i]? = some x) (hp : p x' = p x) :
    (l.set i x').find? p = l.find? p ∨
      ((l.set i x').find? p = some x' ∧ l.find? p = some x) := by
  induction l generalizing i with
  | nil => simp at hget
  | cons y tl ih =>
    cases i with
    | zero =>
      have hy : y = x := by simpa using hget
      subst hy
      rw [List.set_cons_zero]
      by_cases hpy : p y = true
      · right
        exact ⟨find?_cons_pos' p x' tl (hp.trans hpy), find?_cons_pos' p y tl hpy⟩
      · left
        rw [find?_cons_neg' p x' tl (fun hc => hpy (hp ▸ hc)), find?_cons_neg' p y tl hpy]
    | succ i =>
      have hget' : tl[i]? = some x := by simpa using hget
      rw [List.set_cons_succ]
      by_cases hpy : p y = true
      · left
        rw [find?_cons_pos' p y (tl.set i x') hpy, find?_cons_pos' p y tl hpy]
      · rw [find?_cons_neg' p y (tl.set i x') hpy, find?_cons_neg' p y tl hpy]
        exact ih i hget'

theorem toNumQ_getCell_set (cols : List String) (r : List Value) (j : Nat) (v' : Value)
    (hc : toNumQ v' = toNumQ (cellAt r j)) (c : String) :
    toNumQ (getCell cols (r.set j v') c) = toNumQ (getCell cols r c) := by
  cases hk : colIdx cols c with
  | none => simp [getCell, hk]
  | some k =>
    simp only [getCell, hk]
    by_cases hkj : k = j
    · subst hkj
      exact cellAt_coerce_set r k v' hc
    · rw [cellAt_set_ne r _ (fun h => hkj h.symm)]

theorem bvaRows_set_left (cols : List String) (t a : List Value) (j : Nat) (v' : Value)
    (hc : toNumQ v' = toNumQ (cellAt t j)) :
    bvaRows cols (t.set j v') a = bvaRows cols t a := by
  unfold bvaRows
  have he : ∀ c, toNumQ (getCell cols (t.set j v') c) = toNumQ (getCell cols t c) :=
    toNumQ_getCell_set cols t j v' hc
  simp only [he]

theorem bvaRows_set_right (cols : List String) (t a : List Value) (j : Nat) (v' : Value)
    (hc : toNumQ v' = toNumQ (cellAt a j)) :
    bvaRows cols t (a.set j v') = bvaRows cols t a := by
  unfold bvaRows
  have he : ∀ c, toNumQ (getCell cols (a.set j v') c) = toNumQ (getCell cols a c) :=
    toNumQ_getCell_set cols a j v' hc
  simp only [he]

theorem bva_char (b : DataFrame) (sheet : String) {mi : Nat}
    (hm : colIdx b.cols "Month" = some mi) :
    get_budget_vs_actual b sheet =
      (match b.rows.find? (monthCellIs mi "Target"), b.rows.find? (monthCellIs mi sheet) with
       | some t, some a => bvaRows b.cols t a
       | _, _ => [], false) := by
  simp only [get_budget_vs_actual, hm]
  rw [find?_eq_head_filter, find?_eq_head_filter]
  cases hf : b.rows.filter (monthCellIs mi "Target") <;>
    cases hf2 : b.rows.filter (monthCellIs mi sheet) <;> simp

theorem bva_set_congr (budget : DataFrame) (sheet : String) (i j mi : Nat)
    (r : List Value) (v' : Value)
    (hget : budget.rows[i]? = some r)
    (hm : colIdx budget.cols "Month" = some mi)
    (hjm : j ≠ mi)
    (hc : toNumQ v' = toNumQ (cellAt r j)) :
    get_budget_vs_actual ⟨budget.cols, budget.rows.set i (r.set j v')⟩ sheet =
      get_budget_vs_actual budget sheet := by
  rw [bva_char ⟨budget.cols, budget.rows.set i (r.set j v')⟩ sheet hm,
    bva_char budget sheet hm]
  have hpt : monthCellIs mi "Target" (r.set j v') = monthCellIs mi "Target" r := by
    unfold monthCellIs
    rw [cellAt_set_ne r _ hjm]
  have hpa : monthCellIs mi sheet (r.set j v') = monthCellIs mi sheet r := by
    unfold monthCellIs
    rw [cellAt_set_ne r _ hjm]
  rcases find?_set_rel budget.rows i r (r.set j v') (monthCellIs mi "Target") hget hpt
    with ht | ⟨ht1, ht2⟩ <;>
    rcases find?_set_rel budget.rows i r (r.set j v') (monthCellIs mi sheet) hget hpa
      with ha | ⟨ha1, ha2⟩
  · rw [ht, ha]
  · rw [ht, ha1, ha2]
    cases hfind : budget.rows.find? (monthCellIs mi "Target") with
    | none => rfl
    | some t => simp only [bvaRows_set_right budget.cols t r j v' hc]
  · rw [ha, ht1, ht2]
    cases hfind : budget.rows.find? (monthCellIs mi sheet) with
    | none => rfl
    | some a => simp only [bvaRows_set_left budget.cols r a j v' hc]
  · rw [ht1, ht2, ha1, ha2]
    simp only [bvaRows_set_left budget.cols r (r.set j v') j v' hc,
      bvaRows_set_right budget.cols r r j v' hc]

theorem kpis_nonnum (budget : DataFrame) (month year : String) (mi : Nat) (r : List Value)
    (rest : List (List Value))
    (hm : colIdx budget.cols "Month" = some mi)
    (hf : budget.rows.filter (monthCellIs mi (month ++ " " ++ year)) = r :: rest)
    (hnn : (∀ q : ℚ, getCell budget.cols r "Income" ≠ Value.num q)
           ∨ (∀ q : ℚ, getCell budget.cols r "Difference" ≠ Value.num q)) :
    get_monthly_kpis budget month year = ((0, 0, 0), true) := by
  simp only [get_monthly_kpis, hm, hf]
  cases hInc : colIdx budget.cols "Income" with
  | none => rfl
  | some ii =>
    cases hDif : colIdx budget.cols "Difference" with
    | none => rfl
    | some di =>
      cases hv1 : cellAt r ii with
      | num i =>
        cases hv2 : cellAt r di with
        | num d =>
          exfalso
          rcases hnn with hnn | hnn
          · exact hnn i (by simp [getCell, hInc, hv1])
          · exact hnn d (by simp [getCell, hDif, hv2])
        | str s => simp [hv1, hv2]
        | na => simp [hv1, hv2]
      | str s => simp [hv1]
      | na => simp [hv1]

/-- C4 amended: in Category Expenses, Allocation Breakdown and Budget vs
Actual, a value cell holding a string the operation coerces to 0 can be
replaced by the number 0 without changing the output, and no error message
is emitted; in Monthly KPIs a matched row whose Income or Difference cell is
not a number instead triggers the surfaced error path and returns (0, 0, 0). -/
theorem coercion_spec :
    (∀ (ct : DataFrame) (sheet : String) (i j : Nat) (r : List Value) (s : String),
      ct.rows[i]? = some r → colIdx ct.cols sheet = some j → sheet ≠ "Category" →
      "Category" ∈ ct.cols →
      cellAt r j = Value.str s → coerceAmount (Value.str s) = 0 →
        get_category_expenses ⟨ct.cols, ct.rows.set i (r.set j (Value.num 0))⟩ sheet =
          get_category_expenses ct sheet
        ∧ (get_category_expenses ct sheet).2 = false)
    ∧ (∀ (ct : DataFrame) (sheet : String) (i j : Nat) (r : List Value) (s : String),
      ct.rows[i]? = some r → colIdx ct.cols sheet = some j → sheet ≠ "Category" →
      "Category" ∈ ct.cols →
      cellAt r j = Value.str s → getValCoerce (Value.str s) = 0 →
        get_allocation_breakdown ⟨ct.cols, ct.rows.set i (r.set j (Value.num 0))⟩ sheet =
          get_allocation_breakdown ct sheet
        ∧ (get_allocation_breakdown ct sheet).2 = false)
    ∧ (∀ (budget : DataFrame) (sheet : String) (i j mi : Nat) (r : List Value) (s : String),
      budget.rows[i]? = some r → colIdx budget.cols "Month" = some mi → j ≠ mi →
      cellAt r j = Value.str s → toNumQ (Value.str s) = 0 →
        get_budget_vs_actual ⟨budget.cols, budget.rows.set i (r.set j (Value.num 0))⟩ sheet =
          get_budget_vs_actual budget sheet
        ∧ (get_budget_vs_actual budget sheet).2 = false)
    ∧ (∀ (budget : DataFrame) (month year : String) (mi : Nat) (r : List Value)
        (rest : List (List Value)),
      colIdx budget.cols "Month" = some mi →
      budget.rows.filter (monthCellIs mi (month ++ " " ++ year)) = r :: rest →
      ((∀ q : ℚ, getCell budget.cols r "Income" ≠ Value.num q)
        ∨ (∀ q : ℚ, getCell budget.cols r "Difference" ≠ Value.num q)) →
        get_monthly_kpis budget month year = ((0, 0, 0), true)) := by
  refine ⟨?_, ?_, ?_, ?_⟩
  · intro ct sheet i j r s hget hmj hsheet hcat hcell hz
    obtain ⟨ci, hci⟩ := colIdx_exists_of_mem hcat
    exact ⟨ce_set_congr ct sheet i j r s hget hmj hsheet hcell hz,
      (ce_char ct sheet hmj hci).2⟩
  · intro ct sheet i j r s hget hmj hsheet hcat hcell hz
    obtain ⟨ci, hci⟩ := colIdx_exists_of_mem hcat
    constructor
    · exact alloc_set_congr ct sheet i j r (Value.num 0) hget hmj hsheet (by rw [hcell, hz]; rfl)
    · rw [alloc_char ct sheet hmj hci]
  · intro budget sheet i j mi r s hget hm hjm hcell hz
    constructor
    · exact bva_set_congr budget sheet i j mi r (Value.num 0) hget hm hjm (by rw [hcell, hz]; rfl)
    · rw [bva_char budget sheet hm]
  · intro budget month year mi r rest hm hf hnn
    exact kpis_nonnum budget month year mi r rest hm hf hnn

/-- C4 witness: the four parts instantiated at concrete sheets with a
non-numeric "abc" cell. -/
theorem coercion_witness :
    (get_category_expenses
        ⟨ctStrAmount.cols,
         ctStrAmount.rows.set 0 ([Value.str "Rent", Value.str "abc"].set 1 (Value.num 0))⟩
        "Aug 2025" = get_category_expenses ctStrAmount "Aug 2025"
      ∧ (get_category_expenses ctStrAmount "Aug 2025").2 = false)
    ∧ (get_allocation_breakdown
        ⟨ctStrAmount.cols,
         ctStrAmount.rows.set 0 ([Value.str "Rent", Value.str "abc"].set 1 (Value.num 0))⟩
        "Aug 2025" = get_allocation_breakdown ctStrAmount "Aug 2025"
      ∧ (get_allocation_breakdown ctStrAmount "Aug 2025").2 = false)
    ∧ (get_budget_vs_actual
        ⟨budgetStrCell.cols,
         budgetStrCell.rows.set 0 ([Value.str "Target", Value.str "abc"].set 1 (Value.num 0))⟩
        "Aug 2025" = get_budget_vs_actual budgetStrCell "Aug 2025"
      ∧ (get_budget_vs_actual budgetStrCell "Aug 2025").2 = false)
    ∧ get_monthly_kpis budgetStrIncome "August" "2025" = ((0, 0, 0), true) := by
  refine ⟨?_, ?_, ?_, ?_⟩
  · exact coercion_spec.1 ctStrAmount "Aug 2025" 0 1 [Value.str "Rent", Value.str "abc"] "abc"
      (by decide) (by decide) (by decide) (by decide) (by decide) (by decide)
  · exact coercion_spec.2.1 ctStrAmount "Aug 2025" 0 1 [Value.str "Rent", Value.str "abc"] "abc"
      (by decide) (by decide) (by decide) (by decide) (by decide) (by decide)
  · exact coercion_spec.2.2.1 budgetStrCell "Aug 2025" 0 1 0
      [Value.str "Target", Value.str "abc"] "abc"
      (by decide) (by decide) (by decide) (by decide) (by decide)
  · exact coercion_spec.2.2.2 budgetStrIncome "August" "2025" 0
      [Value.str "August 2025", Value.str "abc", Value.num 12000] []
      (by decide) (by decide)
      (Or.inl (fun q hq => by
        rw [show getCell budgetStrIncome.cols
            [Value.str "August 2025", Value.str "abc", Value.num 12000] "Income" =
            Value.str "abc" from by decide] at hq
        exact Value.noConfusion hq))
